import Mathlib

/-!
Verification of `scipy/_build_utils/_generate_blas_wrapper.py`.

The script generates one small C source file per BLAS/LAPACK routine; each
file contains an external declaration of the platform-specific symbol and a
forwarding function under the legacy `F_FUNC` name.  The helper module
`_wrappers_common` (exception sets, C type table, preamble strings, the
`all_newer` timestamp check, the signature parser and the file writer) is
external to the generator source; following the specification it is treated
as static configuration data and is modelled abstractly below.
-/

namespace BlasWrapperGen

/-- A parsed routine signature: name, return type, argument names and
argument types, exactly as produced by the signature reader. -/
structure Sig where
  name : String
  return_type : String
  argnames : List String
  argtypes : List String
deriving DecidableEq, Repr

/-- Modelled from the spec: the static configuration data imported from
`_wrappers_common`, which is not part of the generator source.  It holds the
two exception sets (`WRAPPED_FUNCS`, `USE_OLD_ACCELERATE`), the
type-name-to-C-type map `C_TYPES` (per the spec, return/argument types range
over a small fixed set covered by the table, so the lookup is modelled as a
total function), the per-routine macro/symbol computation
`get_blas_macro_and_name` (per the spec an externally supplied lookup
table), the fixed preamble/guard string constants, and the trusted signature
parser `read_signatures` (its format is out of scope per the spec). -/
structure Env where
  WRAPPED_FUNCS : List String
  USE_OLD_ACCELERATE : List String
  C_TYPES : String → String
  get_blas_macro_and_name : String → Bool → String × String
  C_PREAMBLE : String
  LAPACK_DECLS : String
  CPP_GUARD_BEGIN : String
  CPP_GUARD_END : String
  read_signatures : List String → List Sig

/-- The generated-file header comment (source: `C_COMMENT`, built from the
generator's own file name). -/
def C_COMMENT : String :=
  "/*\nThis file was generated by _generate_blas_wrapper.py.\nDo not edit this file directly.\n*/\n\n"

/-- Python's `name.upper()` for the ASCII routine names: uppercase every
character (defined over the character list so that it evaluates by kernel
reduction). -/
def upper (s : String) : String := String.mk (s.data.map Char.toUpper)

/-- Python's `sep.join(parts)`. -/
def joinSep (sep : String) : List String → String
  | [] => ""
  | [x] => x
  | x :: y :: xs => x ++ sep ++ joinSep sep (y :: xs)

/-- The rendered parameter list of the wrapper (source:
`', '.join(f'\x7bt\x7d *\x7bn\x7d' for t, n in zip(c_argtypes, argnames))` where
`c_argtypes = [C_TYPES[t] for t in argtypes]`). -/
def param_list (env : Env) (argnames argtypes : List String) : String :=
  joinSep (", ") (((argtypes.map env.C_TYPES).zip argnames).map fun p => p.1 ++ " *" ++ p.2)

/-- The external declaration line of the wrapper snippet:
`c_return_type blas_macro(blas_name)(param_list);`. -/
def extern_decl_line (env : Env) (name return_type : String)
    (argnames argtypes : List String) (accelerate : Bool) : String :=
  let mn := env.get_blas_macro_and_name name accelerate
  env.C_TYPES return_type ++ " " ++ mn.1 ++ "(" ++ mn.2 ++ ")(" ++
    param_list env argnames argtypes ++ ");"

/-- The forwarding definition's header line:
`c_return_type F_FUNC(name,NAME)(param_list){`. -/
def forward_defn_line (env : Env) (name return_type : String)
    (argnames argtypes : List String) : String :=
  env.C_TYPES return_type ++ " F_FUNC(" ++ name ++ "," ++ upper name ++ ")(" ++
    param_list env argnames argtypes ++ ")\x7b"

/-- The forwarding definition's body line:
`    return blas_macro(blas_name)(argnames);`. -/
def forward_body_line (env : Env) (name : String) (argnames : List String)
    (accelerate : Bool) : String :=
  let mn := env.get_blas_macro_and_name name accelerate
  "    return " ++ mn.1 ++ "(" ++ mn.2 ++ ")(" ++ joinSep (", ") argnames ++ ");"

/-- `generate_decl_wrapper` from the source: returns the empty string for
names in `WRAPPED_FUNCS`, the empty string when `accelerate` holds and the
name is in `USE_OLD_ACCELERATE`, and otherwise the wrapper snippet

```
\n
c_return_type blas_macro(blas_name)(param_list);\n
c_return_type F_FUNC(name,NAME)(param_list)\x7b\n
    return blas_macro(blas_name)(argnames);\n
\x7d\n
```

rendered here as the equal concatenation of the line definitions above. -/
def generate_decl_wrapper (env : Env) (name return_type : String)
    (argnames argtypes : List String) (accelerate : Bool) : String :=
  if name ∈ env.WRAPPED_FUNCS then ""
  else if accelerate = true ∧ name ∈ env.USE_OLD_ACCELERATE then ""
  else
    "\n" ++ extern_decl_line env name return_type argnames argtypes accelerate ++ "\n" ++
    forward_defn_line env name return_type argnames argtypes ++ "\n" ++
    forward_body_line env name argnames accelerate ++ "\n" ++ "\x7d" ++ "\n"

/-- The preamble list chosen by `generate_file_wrapper`; the source assigns
it only for the two library names, so any other name is a failure. -/
def preamble_of (env : Env) (lib_name : String) : Option (List String) :=
  if lib_name = "BLAS" then some [C_COMMENT, env.C_PREAMBLE, env.CPP_GUARD_BEGIN]
  else if lib_name = "LAPACK" then
    some [C_COMMENT, env.C_PREAMBLE, env.LAPACK_DECLS, env.CPP_GUARD_BEGIN]
  else none

/-- `generate_file_wrapper` from the source: one mapping entry per
signature, keyed `outdir/<name>.c`, whose text is
`''.join(preamble + [generate_decl_wrapper(**sig, accelerate), CPP_GUARD_END])`. -/
def generate_file_wrapper (env : Env) (sigs : List Sig) (lib_name : String)
    (accelerate : Bool) (outdir : String) : Option (List (String × String)) := do
  let preamble ← preamble_of env lib_name
  return sigs.map fun sig =>
    (outdir ++ "/" ++ sig.name ++ ".c",
     String.join (preamble ++
       [generate_decl_wrapper env sig.name sig.return_type sig.argnames sig.argtypes accelerate,
        env.CPP_GUARD_END]))

/-- The file-system state a run of `make_all` observes: modification times
and readable line contents per path (`none` means the path is absent or
unreadable, which aborts the run). -/
structure FS where
  mtime : String → Option Nat
  content : String → Option (List String)

/-- Modelled from the spec: `all_newer(dst_files, src_files)` from
`_wrappers_common` (not under src/) — true exactly when every output file
exists and is newer than every input file. -/
def all_newer (fs : FS) (dst_files src_files : List String) : Bool :=
  dst_files.all fun d =>
    src_files.all fun s =>
      match fs.mtime d, fs.mtime s with
      | some td, some ts => ts < td
      | _, _ => false

/-- The generator's own source path, first element of `src_files` in
`make_all` (the source uses `os.path.abspath(__file__)`; the literal value
is environment dependent and irrelevant to the claims). -/
def GENERATOR_SOURCE : String := "scipy/_build_utils/_generate_blas_wrapper.py"

/-- The status message printed when all outputs are up to date. -/
def UP_TO_DATE_MSG : String :=
  "scipy/_build_utils/_generate_blas_wrapper.py: all files up-to-date"

/-- Observable outcome of a `make_all` run: the status message printed (if
any) and the files handed to `write_files` (modelled from the spec:
`write_files` writes each mapping entry verbatim; `dict(**blas, **lapack)`
is modelled as list concatenation, the two key sets being disjoint path
sets in distinct-name runs). -/
structure MakeAllResult where
  message : Option String
  writes : List (String × String)
deriving DecidableEq

/-- `make_all` from the source: read and parse both signature files, skip
with a status message when `all_newer` holds of the prospective outputs
against the three inputs, and otherwise regenerate and write every wrapper
file of both libraries. -/
def make_all (env : Env) (fs : FS) (outdir : String)
    (blas_signature_file lapack_signature_file : String) (accelerate : Bool) :
    Option MakeAllResult := do
  let blas_lines ← fs.content blas_signature_file
  let lapack_lines ← fs.content lapack_signature_file
  let blas_sigs := env.read_signatures blas_lines
  let lapack_sigs := env.read_signatures lapack_lines
  let src_files := [GENERATOR_SOURCE, blas_signature_file, lapack_signature_file]
  let dst_files := (blas_sigs ++ lapack_sigs).map fun sig => outdir ++ "/" ++ sig.name ++ ".c"
  if all_newer fs dst_files src_files then
    return { message := some UP_TO_DATE_MSG, writes := [] }
  else
    let blas_wrappers ← generate_file_wrapper env blas_sigs ("BLAS") accelerate outdir
    let lapack_wrappers ← generate_file_wrapper env lapack_sigs ("LAPACK") accelerate outdir
    return { message := none, writes := blas_wrappers ++ lapack_wrappers }

/-- A concrete configuration used to evaluate the development on explicit
inputs: plausible values for the external configuration data. -/
def exEnv : Env where
  WRAPPED_FUNCS := ["cdotc", "cdotu", "zdotc", "zdotu", "cladiv", "zladiv"]
  USE_OLD_ACCELERATE := ["lsame", "dcabs1", "scabs1"]
  C_TYPES := fun t =>
    if t = "void" then "void"
    else if t = "int" then "int"
    else if t = "d" then "double"
    else if t = "s" then "float"
    else if t = "char" then "char"
    else t
  get_blas_macro_and_name := fun name accelerate =>
    if accelerate = true ∧ name = "sdot" then (("BLAS_SUFFIXED"), name ++ "wrp")
    else (("BLAS_FUNC"), name)
  C_PREAMBLE := "#include \"npy_cblas.h\"\n"
  LAPACK_DECLS := "typedef struct \x7bfloat r, i;\x7d f2c_complex;\n"
  CPP_GUARD_BEGIN := "#ifdef __cplusplus\nextern \"C\" \x7b\n#endif\n"
  CPP_GUARD_END := "#ifdef __cplusplus\n\x7d\n#endif\n"
  read_signatures := fun lines =>
    lines.map fun l => { name := l, return_type := ("void"), argnames := [], argtypes := [] }

/-- A concrete signature used by the evaluations: `daxpy`. -/
def exDaxpy : Sig where
  name := "daxpy"
  return_type := "void"
  argnames := ["n", "da", "dx", "incx", "dy", "incy"]
  argtypes := ["int", "d", "d", "int", "d", "int"]

/-- A concrete signature whose name is in the hard-coded exception set. -/
def exCdotc : Sig where
  name := "cdotc"
  return_type := "c"
  argnames := ["n", "cx", "incx", "cy", "incy"]
  argtypes := ["int", "c", "int", "c", "int"]

/-- The line decomposition of the wrapper snippet produced by
`generate_decl_wrapper` for a non-excluded signature: an empty line, the
external declaration, the forwarding definition's header, its body, the
closing brace, and the trailing empty line. -/
def wrapper_lines (env : Env) (name return_type : String)
    (argnames argtypes : List String) (accelerate : Bool) : List String :=
  [(""),
   extern_decl_line env name return_type argnames argtypes accelerate,
   forward_defn_line env name return_type argnames argtypes,
   forward_body_line env name argnames accelerate,
   ("\x7d"),
   ("")]

/-- A string contains no newline character, so that it occupies exactly one
line of the generated file. -/
def noNewline (s : String) : Prop := ('\n') ∉ s.data

instance (s : String) : Decidable (noNewline s) := by
  unfold noNewline; infer_instance

/-- Well-formedness of the rendered fragments of one signature: every piece
interpolated into the wrapper template is newline-free (true of all real
configuration data and signature identifiers). -/
def sig_render_wf (env : Env) (name return_type : String)
    (argnames argtypes : List String) (accelerate : Bool) : Prop :=
  noNewline (env.C_TYPES return_type) ∧
  noNewline (env.get_blas_macro_and_name name accelerate).1 ∧
  noNewline (env.get_blas_macro_and_name name accelerate).2 ∧
  noNewline name ∧
  noNewline (upper name) ∧
  (∀ t ∈ argtypes, noNewline (env.C_TYPES t)) ∧
  (∀ n ∈ argnames, noNewline n)

instance (env : Env) (name return_type : String) (argnames argtypes : List String)
    (accelerate : Bool) :
    Decidable (sig_render_wf env name return_type argnames argtypes accelerate) := by
  unfold sig_render_wf; infer_instance

/-- Auxiliary scan: does `pat` occur as a contiguous run inside `s`? -/
def containsRunAux (pat : List Char) : List Char → Bool
  | [] => pat.isEmpty
  | c :: rest => pat.isPrefixOf (c :: rest) || containsRunAux pat rest

/-- `hasSubstr s pat` holds when `pat` occurs contiguously inside `s`. -/
def hasSubstr (s pat : String) : Bool := containsRunAux pat.data s.data

/-- A concrete file system in which both signature files and the generator
source carry time 1 while both prospective outputs exist with time 5, so
every output is strictly newer than every input. -/
def exFreshFS : FS where
  mtime := fun p =>
    if p = GENERATOR_SOURCE ∨ p = ("blas.txt") ∨ p = ("lapack.txt") then some 1
    else if p = ("out/f1.c") ∨ p = ("out/f2.c") then some 5
    else none
  content := fun p =>
    if p = ("blas.txt") then some [("f1")]
    else if p = ("lapack.txt") then some [("f2")]
    else none

/-- A concrete file system identical to `exFreshFS` except that one output
file is older than the inputs, so regeneration is required. -/
def exStaleFS : FS where
  mtime := fun p =>
    if p = GENERATOR_SOURCE ∨ p = ("blas.txt") ∨ p = ("lapack.txt") then some 3
    else if p = ("out/f1.c") then some 0
    else if p = ("out/f2.c") then some 5
    else none
  content := fun p =>
    if p = ("blas.txt") then some [("f1")]
    else if p = ("lapack.txt") then some [("f2")]
    else none

lemma app_ne_nil_left {α : Type} (l l' : List α) (h : l ≠ []) : l ++ l' ≠ [] := by
  cases l with
  | nil => exact absurd rfl h
  | cons a t => simp

lemma head?_app_left {α : Type} (l l' : List α) (h : l ≠ []) : (l ++ l').head? = l.head? := by
  cases l with
  | nil => exact absurd rfl h
  | cons a t => rfl

lemma ne_of_data_last {a b : String} (h : a.data.getLast? ≠ b.data.getLast?) : a ≠ b :=
  fun e => h (by rw [e])

lemma ne_of_data_head {a b : String} (h : a.data.head? ≠ b.data.head?) : a ≠ b :=
  fun e => h (by rw [e])

lemma joinSep_six (a b c d e f : String) :
    joinSep "\n" [a, b, c, d, e, f] =
      a ++ "\n" ++ b ++ "\n" ++ c ++ "\n" ++ d ++ "\n" ++ e ++ "\n" ++ f := by
  simp [joinSep, String.append_assoc]

lemma extern_decl_line_last (env : Env) (name return_type : String)
    (argnames argtypes : List String) (accelerate : Bool) :
    (extern_decl_line env name return_type argnames argtypes accelerate).data.getLast? =
      some ';' := by
  simp only [extern_decl_line, String.data_append]
  rw [List.getLast?_append_cons]
  rfl

lemma forward_defn_line_last (env : Env) (name return_type : String)
    (argnames argtypes : List String) :
    (forward_defn_line env name return_type argnames argtypes).data.getLast? =
      some '{' := by
  simp only [forward_defn_line, String.data_append]
  rw [List.getLast?_append_cons]
  rfl

lemma forward_body_line_last (env : Env) (name : String) (argnames : List String)
    (accelerate : Bool) :
    (forward_body_line env name argnames accelerate).data.getLast? = some ';' := by
  simp only [forward_body_line, String.data_append]
  rw [List.getLast?_append_cons]
  rfl

lemma extern_decl_line_head (env : Env) (name return_type : String)
    (argnames argtypes : List String) (accelerate : Bool)
    (h : (env.C_TYPES return_type).data ≠ []) :
    (extern_decl_line env name return_type argnames argtypes accelerate).data.head? =
      (env.C_TYPES return_type).data.head? := by
  simp only [extern_decl_line, String.data_append]
  rw [head?_app_left, head?_app_left, head?_app_left, head?_app_left, head?_app_left,
    head?_app_left, head?_app_left]
  all_goals simp [h]

lemma forward_body_line_head (env : Env) (name : String) (argnames : List String)
    (accelerate : Bool) :
    (forward_body_line env name argnames accelerate).data.head? = some ' ' := by
  simp only [forward_body_line, String.data_append]
  rw [head?_app_left, head?_app_left, head?_app_left, head?_app_left, head?_app_left]
  all_goals simp

lemma extern_ne_defn (env : Env) (name return_type : String)
    (argnames argtypes : List String) (accelerate : Bool) :
    extern_decl_line env name return_type argnames argtypes accelerate ≠
      forward_defn_line env name return_type argnames argtypes := by
  apply ne_of_data_last
  rw [extern_decl_line_last, forward_defn_line_last]
  decide

lemma extern_ne_body (env : Env) (name return_type : String)
    (argnames argtypes : List String) (accelerate : Bool)
    (h : (env.C_TYPES return_type).data ≠ [])
    (hsp : (env.C_TYPES return_type).data.head? ≠ some ' ') :
    extern_decl_line env name return_type argnames argtypes accelerate ≠
      forward_body_line env name argnames accelerate := by
  apply ne_of_data_head
  rw [extern_decl_line_head env name return_type argnames argtypes accelerate h,
    forward_body_line_head]
  exact hsp

lemma extern_ne_close (env : Env) (name return_type : String)
    (argnames argtypes : List String) (accelerate : Bool) :
    extern_decl_line env name return_type argnames argtypes accelerate ≠ ("\x7d") := by
  apply ne_of_data_last
  rw [extern_decl_line_last]
  decide

lemma extern_ne_empty (env : Env) (name return_type : String)
    (argnames argtypes : List String) (accelerate : Bool) :
    extern_decl_line env name return_type argnames argtypes accelerate ≠ ("") := by
  apply ne_of_data_last
  rw [extern_decl_line_last]
  decide

lemma defn_ne_body (env : Env) (name return_type : String)
    (argnames argtypes : List String) (accelerate : Bool) :
    forward_defn_line env name return_type argnames argtypes ≠
      forward_body_line env name argnames accelerate := by
  apply ne_of_data_last
  rw [forward_defn_line_last, forward_body_line_last]
  decide

lemma defn_ne_close (env : Env) (name return_type : String)
    (argnames argtypes : List String) :
    forward_defn_line env name return_type argnames argtypes ≠ ("\x7d") := by
  apply ne_of_data_last
  rw [forward_defn_line_last]
  decide

lemma defn_ne_empty (env : Env) (name return_type : String)
    (argnames argtypes : List String) :
    forward_defn_line env name return_type argnames argtypes ≠ ("") := by
  apply ne_of_data_last
  rw [forward_defn_line_last]
  decide

lemma gdw_eq_joinSep (env : Env) (name return_type : String)
    (argnames argtypes : List String) (accelerate : Bool)
    (h1 : name ∉ env.WRAPPED_FUNCS)
    (h2 : ¬(accelerate = true ∧ name ∈ env.USE_OLD_ACCELERATE)) :
    generate_decl_wrapper env name return_type argnames argtypes accelerate =
      joinSep "\n" (wrapper_lines env name return_type argnames argtypes accelerate) := by
  unfold generate_decl_wrapper wrapper_lines
  rw [if_neg h1, if_neg h2, joinSep_six]
  rw [String.empty_append]
  rw [String.append_empty]

lemma noNewline_append {a b : String} (ha : noNewline a) (hb : noNewline b) :
    noNewline (a ++ b) := by
  unfold noNewline at *
  simp only [String.data_append, List.mem_append, not_or]
  exact ⟨ha, hb⟩

lemma noNewline_joinSep (sep : String) (hsep : noNewline sep) :
    ∀ l : List String, (∀ x ∈ l, noNewline x) → noNewline (joinSep sep l)
  | [], _ => by simp [joinSep, noNewline]
  | [x], h => by simpa [joinSep] using h x (by simp)
  | x :: y :: xs, h => by
    simp only [joinSep]
    exact noNewline_append (noNewline_append (h x (by simp)) hsep)
      (noNewline_joinSep sep hsep (y :: xs) (fun z hz => h z (List.mem_cons_of_mem x hz)))

lemma noNewline_param_list (env : Env) (argnames argtypes : List String)
    (hts : ∀ t ∈ argtypes, noNewline (env.C_TYPES t))
    (hns : ∀ n ∈ argnames, noNewline n) :
    noNewline (param_list env argnames argtypes) := by
  apply noNewline_joinSep _ (by decide)
  intro x hx
  simp only [param_list, List.mem_map] at hx
  obtain ⟨p, hp, rfl⟩ := hx
  obtain ⟨hp1, hp2⟩ := List.of_mem_zip hp
  obtain ⟨t, ht, het⟩ := List.mem_map.mp hp1
  exact noNewline_append (noNewline_append (het ▸ hts t ht) (by decide)) (hns p.2 hp2)

lemma param_list_eq_zipWith (env : Env) : ∀ (argtypes argnames : List String),
    ((argtypes.map env.C_TYPES).zip argnames).map (fun p => p.1 ++ " *" ++ p.2) =
      List.zipWith (fun t n => env.C_TYPES t ++ " *" ++ n) argtypes argnames
  | [], _ => by simp
  | _ :: _, [] => by simp
  | t :: ats, n :: ans => by simp [param_list_eq_zipWith env ats ans]

lemma count_wrapper_lines (env : Env) (name return_type : String)
    (argnames argtypes : List String) (accelerate : Bool)
    (h : (env.C_TYPES return_type).data ≠ [])
    (hsp : (env.C_TYPES return_type).data.head? ≠ some ' ') :
    (wrapper_lines env name return_type argnames argtypes accelerate).count
        (extern_decl_line env name return_type argnames argtypes accelerate) = 1 ∧
      (wrapper_lines env name return_type argnames argtypes accelerate).count
        (forward_defn_line env name return_type argnames argtypes) = 1 := by
  have e1 := extern_ne_defn env name return_type argnames argtypes accelerate
  have e2 := extern_ne_body env name return_type argnames argtypes accelerate h hsp
  have e3 := extern_ne_close env name return_type argnames argtypes accelerate
  have e4 := extern_ne_empty env name return_type argnames argtypes accelerate
  have f1 := defn_ne_body env name return_type argnames argtypes accelerate
  have f2 := defn_ne_close env name return_type argnames argtypes
  have f3 := defn_ne_empty env name return_type argnames argtypes
  constructor
  · simp [wrapper_lines, List.count_cons, e1, e2, e3, e4]
  · simp [wrapper_lines, List.count_cons, Ne.symm e1, f1, f2, f3]

lemma noNewline_lines (env : Env) (name return_type : String)
    (argnames argtypes : List String) (accelerate : Bool)
    (hwf : sig_render_wf env name return_type argnames argtypes accelerate) :
    ∀ l ∈ wrapper_lines env name return_type argnames argtypes accelerate, noNewline l := by
  obtain ⟨w1, w2, w3, w4, w5, w6, w7⟩ := hwf
  have hplist := noNewline_param_list env argnames argtypes w6 w7
  have hE : noNewline (extern_decl_line env name return_type argnames argtypes accelerate) := by
    unfold extern_decl_line
    exact noNewline_append (noNewline_append (noNewline_append (noNewline_append
      (noNewline_append (noNewline_append (noNewline_append w1 (by decide)) w2)
        (by decide)) w3) (by decide)) hplist) (by decide)
  have hF : noNewline (forward_defn_line env name return_type argnames argtypes) := by
    unfold forward_defn_line
    exact noNewline_append (noNewline_append (noNewline_append (noNewline_append
      (noNewline_append (noNewline_append (noNewline_append w1 (by decide)) w4)
        (by decide)) w5) (by decide)) hplist) (by decide)
  have hB : noNewline (forward_body_line env name argnames accelerate) := by
    unfold forward_body_line
    exact noNewline_append (noNewline_append (noNewline_append (noNewline_append
      (noNewline_append (noNewline_append (by decide) w2) (by decide)) w3)
        (by decide)) (noNewline_joinSep (", ") (by decide) argnames w7)) (by decide)
  intro l hl
  simp only [wrapper_lines, List.mem_cons, List.not_mem_nil, or_false] at hl
  rcases hl with rfl | rfl | rfl | rfl | rfl | rfl
  · simp [noNewline]
  · exact hE
  · exact hF
  · exact hB
  · decide
  · simp [noNewline]

/-- Claim C1: for every signature whose name is in neither exception set,
the wrapper text produced by `generate_decl_wrapper` is the newline-join of
its six-line decomposition; under the stated well-formedness of the
rendered fragments every line is newline-free, exactly one line is the
external declaration of the computed BLAS symbol and exactly one line is
the forwarding function definition under `F_FUNC(name,NAME)`; the shared
parameter list renders the arguments in signature order (the i-th parameter
pairs the i-th C type with the i-th argument name) and has exactly as many
parameters as the signature has argument names. -/
theorem C1_unique_decl_defn_and_params (env : Env) (name return_type : String)
    (argnames argtypes : List String) (accelerate : Bool)
    (h1 : name ∉ env.WRAPPED_FUNCS)
    (h2 : ¬(accelerate = true ∧ name ∈ env.USE_OLD_ACCELERATE))
    (hwf : sig_render_wf env name return_type argnames argtypes accelerate)
    (hlen : argtypes.length = argnames.length)
    (hr : (env.C_TYPES return_type).data ≠ [])
    (hsp : (env.C_TYPES return_type).data.head? ≠ some ' ') :
    generate_decl_wrapper env name return_type argnames argtypes accelerate =
        joinSep "\n" (wrapper_lines env name return_type argnames argtypes accelerate) ∧
      (∀ l ∈ wrapper_lines env name return_type argnames argtypes accelerate, noNewline l) ∧
      (wrapper_lines env name return_type argnames argtypes accelerate).count
        (extern_decl_line env name return_type argnames argtypes accelerate) = 1 ∧
      (wrapper_lines env name return_type argnames argtypes accelerate).count
        (forward_defn_line env name return_type argnames argtypes) = 1 ∧
      param_list env argnames argtypes =
        joinSep (", ")
          (List.zipWith (fun t n => env.C_TYPES t ++ " *" ++ n) argtypes argnames) ∧
      (List.zipWith (fun t n => env.C_TYPES t ++ " *" ++ n) argtypes argnames).length =
        argnames.length := by
  obtain ⟨hc1, hc2⟩ :=
    count_wrapper_lines env name return_type argnames argtypes accelerate hr hsp
  refine ⟨gdw_eq_joinSep env name return_type argnames argtypes accelerate h1 h2,
    noNewline_lines env name return_type argnames argtypes accelerate hwf, hc1, hc2, ?_, ?_⟩
  · unfold param_list
    rw [param_list_eq_zipWith]
  · rw [List.length_zipWith, hlen]
    exact min_self _

/-- Witness for C1 at the concrete signature `daxpy` and the concrete
configuration `exEnv`, with the accelerate flag off. -/
theorem C1_witness :
    (("daxpy") ∉ exEnv.WRAPPED_FUNCS) ∧
      (wrapper_lines exEnv ("daxpy") ("void") exDaxpy.argnames exDaxpy.argtypes false).count
        (extern_decl_line exEnv ("daxpy") ("void") exDaxpy.argnames exDaxpy.argtypes false) = 1 ∧
      (wrapper_lines exEnv ("daxpy") ("void") exDaxpy.argnames exDaxpy.argtypes false).count
        (forward_defn_line exEnv ("daxpy") ("void") exDaxpy.argnames exDaxpy.argtypes) = 1 ∧
      (List.zipWith (fun t n => exEnv.C_TYPES t ++ " *" ++ n)
        exDaxpy.argtypes exDaxpy.argnames).length = 6 := by
  have h := C1_unique_decl_defn_and_params exEnv ("daxpy") ("void")
    exDaxpy.argnames exDaxpy.argtypes false (by decide) (by decide) (by decide)
    (by decide) (by decide) (by decide)
  exact ⟨by decide, h.2.2.1, h.2.2.2.1, h.2.2.2.2.2.trans (by decide)⟩

/-- Claim C2: a routine in `USE_OLD_ACCELERATE` (and not in `WRAPPED_FUNCS`)
gets an empty wrapper under accelerate mode, and a non-empty wrapper snippet
under standard mode. -/
theorem C2_old_accelerate_skip (env : Env) (name return_type : String)
    (argnames argtypes : List String)
    (hU : name ∈ env.USE_OLD_ACCELERATE)
    (hW : name ∉ env.WRAPPED_FUNCS) :
    generate_decl_wrapper env name return_type argnames argtypes true = "" ∧
      generate_decl_wrapper env name return_type argnames argtypes false ≠ "" := by
  constructor
  · unfold generate_decl_wrapper
    rw [if_neg hW, if_pos ⟨rfl, hU⟩]
  · unfold generate_decl_wrapper
    rw [if_neg hW, if_neg (by simp)]
    intro hcontra
    have hdata := congrArg String.data hcontra
    simp [String.data_append] at hdata

/-- Witness for C2 at the concrete routine `dcabs1` in `exEnv`. -/
theorem C2_witness :
    (("dcabs1") ∈ exEnv.USE_OLD_ACCELERATE) ∧ (("dcabs1") ∉ exEnv.WRAPPED_FUNCS) ∧
      generate_decl_wrapper exEnv ("dcabs1") ("d") ["z"] ["c"] true = "" ∧
      generate_decl_wrapper exEnv ("dcabs1") ("d") ["z"] ["c"] false ≠ "" := by
  have h := C2_old_accelerate_skip exEnv ("dcabs1") ("d") ["z"] ["c"]
    (by decide) (by decide)
  exact ⟨by decide, by decide, h.1, h.2⟩

lemma join_append_two (l : List String) (a b : String) :
    String.join (l ++ [a, b]) = String.join l ++ a ++ b := by
  unfold String.join
  rw [List.foldl_append]
  rfl

/-- Claim C3: a routine whose name is in `WRAPPED_FUNCS` gets an empty
wrapper for either value of the accelerate flag, so its generated file is
exactly the preamble followed by the closing guard, with nothing in
between. -/
theorem C3_wrapped_funcs_empty (env : Env) (sig : Sig) (accelerate : Bool)
    (hW : sig.name ∈ env.WRAPPED_FUNCS)
    (lib_name outdir : String) (sigs : List Sig)
    (hlib : lib_name = "BLAS" ∨ lib_name = "LAPACK")
    (hmem : sig ∈ sigs) :
    generate_decl_wrapper env sig.name sig.return_type sig.argnames sig.argtypes accelerate
        = "" ∧
      ∃ pre m, preamble_of env lib_name = some pre ∧
        generate_file_wrapper env sigs lib_name accelerate outdir = some m ∧
        (outdir ++ "/" ++ sig.name ++ ".c", String.join pre ++ env.CPP_GUARD_END) ∈ m := by
  have h0 : generate_decl_wrapper env sig.name sig.return_type sig.argnames sig.argtypes
      accelerate = "" := by
    unfold generate_decl_wrapper
    rw [if_pos hW]
  refine ⟨h0, ?_⟩
  rcases hlib with rfl | rfl
  · have hpre : preamble_of env ("BLAS") =
        some [C_COMMENT, env.C_PREAMBLE, env.CPP_GUARD_BEGIN] := by
      simp [preamble_of]
    have hm : generate_file_wrapper env sigs ("BLAS") accelerate outdir =
        some (sigs.map fun s =>
          (outdir ++ "/" ++ s.name ++ ".c",
           String.join ([C_COMMENT, env.C_PREAMBLE, env.CPP_GUARD_BEGIN] ++
             [generate_decl_wrapper env s.name s.return_type s.argnames s.argtypes accelerate,
              env.CPP_GUARD_END]))) := by
      simp [generate_file_wrapper, hpre]
    refine ⟨_, _, hpre, hm, ?_⟩
    have hmm := List.mem_map_of_mem (fun s =>
      (outdir ++ "/" ++ s.name ++ ".c",
       String.join ([C_COMMENT, env.C_PREAMBLE, env.CPP_GUARD_BEGIN] ++
         [generate_decl_wrapper env s.name s.return_type s.argnames s.argtypes accelerate,
          env.CPP_GUARD_END]))) hmem
    simp only [h0] at hmm
    rw [join_append_two, String.append_empty] at hmm
    exact hmm
  · have hpre : preamble_of env ("LAPACK") =
        some [C_COMMENT, env.C_PREAMBLE, env.LAPACK_DECLS, env.CPP_GUARD_BEGIN] := by
      simp [preamble_of]
    have hm : generate_file_wrapper env sigs ("LAPACK") accelerate outdir =
        some (sigs.map fun s =>
          (outdir ++ "/" ++ s.name ++ ".c",
           String.join ([C_COMMENT, env.C_PREAMBLE, env.LAPACK_DECLS, env.CPP_GUARD_BEGIN] ++
             [generate_decl_wrapper env s.name s.return_type s.argnames s.argtypes accelerate,
              env.CPP_GUARD_END]))) := by
      simp [generate_file_wrapper, hpre]
    refine ⟨_, _, hpre, hm, ?_⟩
    have hmm := List.mem_map_of_mem (fun s =>
      (outdir ++ "/" ++ s.name ++ ".c",
       String.join ([C_COMMENT, env.C_PREAMBLE, env.LAPACK_DECLS, env.CPP_GUARD_BEGIN] ++
         [generate_decl_wrapper env s.name s.return_type s.argnames s.argtypes accelerate,
          env.CPP_GUARD_END]))) hmem
    simp only [h0] at hmm
    rw [join_append_two, String.append_empty] at hmm
    exact hmm

/-- Witness for C3 at the complex-valued routine `cdotc` in `exEnv`. -/
theorem C3_witness :
    (exCdotc.name ∈ exEnv.WRAPPED_FUNCS) ∧
      generate_decl_wrapper exEnv exCdotc.name exCdotc.return_type exCdotc.argnames
        exCdotc.argtypes true = "" ∧
      ∃ pre m, preamble_of exEnv ("BLAS") = some pre ∧
        generate_file_wrapper exEnv [exCdotc] ("BLAS") true ("out") = some m ∧
        (("out") ++ "/" ++ exCdotc.name ++ ".c", String.join pre ++ exEnv.CPP_GUARD_END) ∈ m := by
  have h := C3_wrapped_funcs_empty exEnv exCdotc true (by decide) ("BLAS") ("out")
    [exCdotc] (Or.inl rfl) (by decide)
  exact ⟨by decide, h.1, h.2⟩

lemma foldl_append_hoist : ∀ (l : List String) (s : String),
    l.foldl (fun r t => r ++ t) s = s ++ l.foldl (fun r t => r ++ t) ""
  | [], s => (String.append_empty s).symm
  | a :: l, s => by
    simp only [List.foldl_cons]
    rw [foldl_append_hoist l (s ++ a), foldl_append_hoist l ("" ++ a),
      String.empty_append, String.append_assoc]

lemma join_nil : String.join ([] : List String) = "" := rfl

lemma join_cons (a : String) (l : List String) : String.join (a :: l) = a ++ String.join l := by
  unfold String.join
  simp only [List.foldl_cons]
  rw [foldl_append_hoist l ("" ++ a), String.empty_append]

lemma gfw_some (env : Env) (sigs : List Sig) (lib_name : String) (accelerate : Bool)
    (outdir : String) (pre : List String) (hpre : preamble_of env lib_name = some pre) :
    generate_file_wrapper env sigs lib_name accelerate outdir =
      some (sigs.map fun s =>
        (outdir ++ "/" ++ s.name ++ ".c",
         String.join (pre ++
           [generate_decl_wrapper env s.name s.return_type s.argnames s.argtypes accelerate,
            env.CPP_GUARD_END]))) := by
  simp [generate_file_wrapper, hpre]

/-- Counterexample to C4 as stated: at the concrete void-returning signature
`srotg` (not excluded by either set), the generated forwarding body does NOT
omit the return statement — the substring `return` occurs in the wrapper
text, refuting the claimed omission. -/
theorem C4_counterexample :
    ¬ (hasSubstr (generate_decl_wrapper exEnv ("srotg") ("void")
        ["sa", "sb", "c", "s"] ["s", "s", "s", "s"] false) ("return") = false) := by
  decide

/-- Claim C4 (amended): for every non-excluded signature, including those
with return type `void`, the forwarding definition's body always consists of
a return statement propagating the extern call's result — the body line
begins with `    return ` for void return types just as for the others. -/
theorem C4_return_always_emitted (env : Env) (name : String)
    (argnames argtypes : List String) (accelerate : Bool) (return_type : String)
    (_hv : return_type = "void")
    (h1 : name ∉ env.WRAPPED_FUNCS)
    (h2 : ¬(accelerate = true ∧ name ∈ env.USE_OLD_ACCELERATE)) :
    generate_decl_wrapper env name return_type argnames argtypes accelerate =
        joinSep "\n" (wrapper_lines env name return_type argnames argtypes accelerate) ∧
      ("    return ").data <+: (forward_body_line env name argnames accelerate).data := by
  refine ⟨gdw_eq_joinSep env name return_type argnames argtypes accelerate h1 h2, ?_⟩
  unfold forward_body_line
  simp only [String.data_append, List.append_assoc]
  exact List.prefix_append _ _

/-- Witness for the amended C4 at the concrete void signature `srotg`. -/
theorem C4_witness :
    (("void") = ("void")) ∧ (("srotg") ∉ exEnv.WRAPPED_FUNCS) ∧
      ("    return ").data <+: (forward_body_line exEnv ("srotg")
        ["sa", "sb", "c", "s"] false).data := by
  have h := C4_return_always_emitted exEnv ("srotg") ["sa", "sb", "c", "s"]
    ["s", "s", "s", "s"] false ("void") rfl (by decide) (by decide)
  exact ⟨rfl, by decide, h.2⟩

/-- Counterexample to C5 as stated: for the concrete signature list
containing only `cdotc`, whose name is in `WRAPPED_FUNCS`, the produced
mapping does contain an output file keyed `out/cdotc.c` — the code
materializes a file for hard-coded-wrapper routines rather than omitting
it. -/
theorem C5_counterexample :
    Option.map (List.map Prod.fst)
        (generate_file_wrapper exEnv [exCdotc] ("BLAS") false ("out")) =
      some [("out/cdotc.c")] := by
  decide

/-- Claim C5 (amended): every signature produces exactly one mapping entry,
keyed `<outdir>/<name>.c`, one per signature in order; for a routine in the
hard-coded exception set the produced file is not omitted but its body is
empty — the file is exactly the preamble followed by the closing guard. -/
theorem C5_one_file_per_sig (env : Env) (sigs : List Sig) (lib_name : String)
    (accelerate : Bool) (outdir : String)
    (hlib : lib_name = "BLAS" ∨ lib_name = "LAPACK") :
    ∃ m pre, preamble_of env lib_name = some pre ∧
      generate_file_wrapper env sigs lib_name accelerate outdir = some m ∧
      m.map Prod.fst = sigs.map (fun s => outdir ++ "/" ++ s.name ++ ".c") ∧
      ∀ sig ∈ sigs, sig.name ∈ env.WRAPPED_FUNCS →
        (outdir ++ "/" ++ sig.name ++ ".c", String.join pre ++ env.CPP_GUARD_END) ∈ m := by
  obtain ⟨pre, hpre⟩ : ∃ pre, preamble_of env lib_name = some pre := by
    rcases hlib with rfl | rfl
    · exact ⟨[C_COMMENT, env.C_PREAMBLE, env.CPP_GUARD_BEGIN], by simp [preamble_of]⟩
    · exact ⟨[C_COMMENT, env.C_PREAMBLE, env.LAPACK_DECLS, env.CPP_GUARD_BEGIN],
        by simp [preamble_of]⟩
  refine ⟨_, pre, hpre, gfw_some env sigs lib_name accelerate outdir pre hpre, ?_, ?_⟩
  · rw [List.map_map]
    rfl
  · intro sig hsig hWsig
    have h0 : generate_decl_wrapper env sig.name sig.return_type sig.argnames sig.argtypes
        accelerate = "" := by
      unfold generate_decl_wrapper
      rw [if_pos hWsig]
    have hmm := List.mem_map_of_mem (fun s =>
      (outdir ++ "/" ++ s.name ++ ".c",
       String.join (pre ++
         [generate_decl_wrapper env s.name s.return_type s.argnames s.argtypes accelerate,
          env.CPP_GUARD_END]))) hsig
    simp only [h0] at hmm
    rw [join_append_two, String.append_empty] at hmm
    exact hmm

/-- Witness for the amended C5 at the concrete list `[cdotc, daxpy]`. -/
theorem C5_witness :
    ((("BLAS") : String) = ("BLAS") ∨ (("BLAS") : String) = ("LAPACK")) ∧
      ∃ m pre, preamble_of exEnv ("BLAS") = some pre ∧
        generate_file_wrapper exEnv [exCdotc, exDaxpy] ("BLAS") false ("out") = some m ∧
        m.map Prod.fst = [exCdotc, exDaxpy].map (fun s => ("out") ++ "/" ++ s.name ++ ".c") ∧
        ∀ sig ∈ [exCdotc, exDaxpy], sig.name ∈ exEnv.WRAPPED_FUNCS →
          (("out") ++ "/" ++ sig.name ++ ".c", String.join pre ++ exEnv.CPP_GUARD_END) ∈ m :=
  ⟨Or.inl rfl,
   C5_one_file_per_sig exEnv [exCdotc, exDaxpy] ("BLAS") false ("out") (Or.inl rfl)⟩

/-- Claim C8: for both libraries, each signature's file text is exactly the
concatenation of the header comment, the fixed preamble (for LAPACK
additionally the forward-declarations block), the opening guard, the
per-routine declaration-or-empty string, and the closing guard; every
signature gets an entry, so an empty wrapper is still materialized as the
near-empty preamble-plus-guard file rather than being omitted. -/
theorem C8_file_assembly (env : Env) (sigs : List Sig) (accelerate : Bool)
    (outdir : String) :
    generate_file_wrapper env sigs ("BLAS") accelerate outdir =
        some (sigs.map fun sig =>
          (outdir ++ "/" ++ sig.name ++ ".c",
           C_COMMENT ++ env.C_PREAMBLE ++ env.CPP_GUARD_BEGIN ++
             generate_decl_wrapper env sig.name sig.return_type sig.argnames sig.argtypes
               accelerate ++
             env.CPP_GUARD_END)) ∧
      generate_file_wrapper env sigs ("LAPACK") accelerate outdir =
        some (sigs.map fun sig =>
          (outdir ++ "/" ++ sig.name ++ ".c",
           C_COMMENT ++ env.C_PREAMBLE ++ env.LAPACK_DECLS ++ env.CPP_GUARD_BEGIN ++
             generate_decl_wrapper env sig.name sig.return_type sig.argnames sig.argtypes
               accelerate ++
             env.CPP_GUARD_END)) := by
  constructor
  · rw [gfw_some env sigs ("BLAS") accelerate outdir
      [C_COMMENT, env.C_PREAMBLE, env.CPP_GUARD_BEGIN] (by simp [preamble_of])]
    congr 1
  · rw [gfw_some env sigs ("LAPACK") accelerate outdir
      [C_COMMENT, env.C_PREAMBLE, env.LAPACK_DECLS, env.CPP_GUARD_BEGIN]
      (by simp [preamble_of])]
    congr 1

/-- Claim C9: the wrapper generation is deterministic — two runs over equal
signature sequences, library names, accelerate flags and output directories
produce identical path-to-contents mappings; in the embedding the functions
read nothing but these inputs and the static configuration, so equal inputs
yield equal outputs. -/
theorem C9_deterministic (env : Env) (sigs sigs2 : List Sig) (lib lib2 : String)
    (acc acc2 : Bool) (outdir outdir2 : String)
    (name return_type name2 return_type2 : String)
    (argnames argtypes argnames2 argtypes2 : List String)
    (hs : sigs = sigs2) (hl : lib = lib2) (ha : acc = acc2) (ho : outdir = outdir2)
    (hn : name = name2) (hr : return_type = return_type2)
    (han : argnames = argnames2) (hat : argtypes = argtypes2) :
    generate_file_wrapper env sigs lib acc outdir =
        generate_file_wrapper env sigs2 lib2 acc2 outdir2 ∧
      generate_decl_wrapper env name return_type argnames argtypes acc =
        generate_decl_wrapper env name2 return_type2 argnames2 argtypes2 acc2 := by
  subst hs hl ha ho hn hr han hat
  exact ⟨rfl, rfl⟩

/-- Witness for C9 at concrete equal inputs. -/
theorem C9_witness :
    ([exDaxpy] = [exDaxpy]) ∧
      generate_file_wrapper exEnv [exDaxpy] ("BLAS") false ("out") =
        generate_file_wrapper exEnv [exDaxpy] ("BLAS") false ("out") :=
  ⟨rfl,
   (C9_deterministic exEnv [exDaxpy] [exDaxpy] ("BLAS") ("BLAS") false false ("out") ("out")
     ("daxpy") ("void") ("daxpy") ("void") exDaxpy.argnames exDaxpy.argtypes
     exDaxpy.argnames exDaxpy.argtypes rfl rfl rfl rfl rfl rfl rfl rfl).1⟩

/-- Claim C10: in every generated wrapper the parameter list shared by the
external declaration and the forwarding definition consists exclusively of
pointer parameters — each rendered parameter is the mapped C type of an
argument type followed by ` *` and an argument name — for every argument of
every non-excluded signature, whatever the accelerate flag. -/
theorem C10_params_are_pointers (env : Env) (name return_type : String)
    (argnames argtypes : List String) (accelerate : Bool)
    (h1 : name ∉ env.WRAPPED_FUNCS)
    (h2 : ¬(accelerate = true ∧ name ∈ env.USE_OLD_ACCELERATE)) :
    generate_decl_wrapper env name return_type argnames argtypes accelerate =
        joinSep "\n" (wrapper_lines env name return_type argnames argtypes accelerate) ∧
      param_list env argnames argtypes =
        joinSep (", ")
          (((argtypes.map env.C_TYPES).zip argnames).map fun p => p.1 ++ " *" ++ p.2) ∧
      ∀ p ∈ ((argtypes.map env.C_TYPES).zip argnames).map (fun p => p.1 ++ " *" ++ p.2),
        ∃ t n, t ∈ argtypes ∧ n ∈ argnames ∧ p = env.C_TYPES t ++ " *" ++ n := by
  refine ⟨gdw_eq_joinSep env name return_type argnames argtypes accelerate h1 h2, rfl, ?_⟩
  intro p hp
  simp only [List.mem_map] at hp
  obtain ⟨q, hq, rfl⟩ := hp
  obtain ⟨hq1, hq2⟩ := List.of_mem_zip hq
  obtain ⟨t, ht, het⟩ := List.mem_map.mp hq1
  exact ⟨t, q.2, ht, hq2, by rw [het]⟩

/-- Witness for C10 at the concrete signature `daxpy` in `exEnv`. -/
theorem C10_witness :
    (("daxpy") ∉ exEnv.WRAPPED_FUNCS) ∧
      ∀ p ∈ ((exDaxpy.argtypes.map exEnv.C_TYPES).zip exDaxpy.argnames).map
          (fun p => p.1 ++ " *" ++ p.2),
        ∃ t n, t ∈ exDaxpy.argtypes ∧ n ∈ exDaxpy.argnames ∧
          p = exEnv.C_TYPES t ++ " *" ++ n :=
  ⟨by decide,
   (C10_params_are_pointers exEnv ("daxpy") ("void") exDaxpy.argnames exDaxpy.argtypes
     false (by decide) (by decide)).2.2⟩

/-- Claim C6: when both signature files are readable and every prospective
output file is newer than every input (the two signature files and the
generator source), `make_all` performs zero writes and reports the skip via
the status message; since the run is a pure function of the observed file
system, a second run under the same unchanged state likewise writes
nothing. -/
theorem C6_skip_when_fresh (env : Env) (fs : FS) (outdir bfile lfile : String)
    (accelerate : Bool) (blines llines : List String)
    (hb : fs.content bfile = some blines) (hl : fs.content lfile = some llines)
    (hnewer : all_newer fs
        ((env.read_signatures blines ++ env.read_signatures llines).map
          (fun sig => outdir ++ "/" ++ sig.name ++ ".c"))
        [GENERATOR_SOURCE, bfile, lfile] = true) :
    make_all env fs outdir bfile lfile accelerate =
      some { message := some UP_TO_DATE_MSG, writes := [] } := by
  unfold make_all
  rw [hb, hl]
  rw [List.map_append] at hnewer
  simp [hnewer]

/-- Witness for C6 on the concrete fresh file system `exFreshFS`. -/
theorem C6_witness :
    (exFreshFS.content ("blas.txt") = some [("f1")]) ∧
      (all_newer exFreshFS
        ((exEnv.read_signatures [("f1")] ++ exEnv.read_signatures [("f2")]).map
          (fun sig => ("out") ++ "/" ++ sig.name ++ ".c"))
        [GENERATOR_SOURCE, ("blas.txt"), ("lapack.txt")] = true) ∧
      make_all exEnv exFreshFS ("out") ("blas.txt") ("lapack.txt") false =
        some { message := some UP_TO_DATE_MSG, writes := [] } := by
  have h := C6_skip_when_fresh exEnv exFreshFS ("out") ("blas.txt") ("lapack.txt") false
    [("f1")] [("f2")] (by decide) (by decide) (by decide)
  exact ⟨by decide, by decide, h⟩

/-- Claim C7: when the staleness check fails — some input is newer than some
output, an output is missing, or any timestamp is unavailable — `make_all`
regenerates and writes every wrapper file for every signature of both
libraries: the written paths are exactly one `<outdir>/<name>.c` per
signature of the BLAS list followed by one per signature of the LAPACK
list, not only the files affected by a change. -/
theorem C7_regenerates_all (env : Env) (fs : FS) (outdir bfile lfile : String)
    (accelerate : Bool) (blines llines : List String)
    (hb : fs.content bfile = some blines) (hl : fs.content lfile = some llines)
    (hstale : all_newer fs
        ((env.read_signatures blines ++ env.read_signatures llines).map
          (fun sig => outdir ++ "/" ++ sig.name ++ ".c"))
        [GENERATOR_SOURCE, bfile, lfile] = false) :
    ∃ wB wL,
      generate_file_wrapper env (env.read_signatures blines) ("BLAS") accelerate outdir
          = some wB ∧
      generate_file_wrapper env (env.read_signatures llines) ("LAPACK") accelerate outdir
          = some wL ∧
      make_all env fs outdir bfile lfile accelerate =
        some { message := none, writes := wB ++ wL } ∧
      (wB ++ wL).map Prod.fst =
        (env.read_signatures blines ++ env.read_signatures llines).map
          (fun sig => outdir ++ "/" ++ sig.name ++ ".c") := by
  have hB := gfw_some env (env.read_signatures blines) ("BLAS") accelerate outdir
    [C_COMMENT, env.C_PREAMBLE, env.CPP_GUARD_BEGIN] (by simp [preamble_of])
  have hL := gfw_some env (env.read_signatures llines) ("LAPACK") accelerate outdir
    [C_COMMENT, env.C_PREAMBLE, env.LAPACK_DECLS, env.CPP_GUARD_BEGIN]
    (by simp [preamble_of])
  refine ⟨_, _, hB, hL, ?_, ?_⟩
  · unfold make_all
    rw [hb, hl]
    rw [List.map_append] at hstale
    simp [hstale, hB, hL]
  · rw [List.map_append, List.map_map, List.map_map, List.map_append]
    rfl

/-- Witness for C7 on the concrete stale file system `exStaleFS`. -/
theorem C7_witness :
    (all_newer exStaleFS
        ((exEnv.read_signatures [("f1")] ++ exEnv.read_signatures [("f2")]).map
          (fun sig => ("out") ++ "/" ++ sig.name ++ ".c"))
        [GENERATOR_SOURCE, ("blas.txt"), ("lapack.txt")] = false) ∧
      ∃ wB wL,
        generate_file_wrapper exEnv (exEnv.read_signatures [("f1")]) ("BLAS") false ("out")
            = some wB ∧
        generate_file_wrapper exEnv (exEnv.read_signatures [("f2")]) ("LAPACK") false ("out")
            = some wL ∧
        make_all exEnv exStaleFS ("out") ("blas.txt") ("lapack.txt") false =
          some { message := none, writes := wB ++ wL } ∧
        (wB ++ wL).map Prod.fst =
          (exEnv.read_signatures [("f1")] ++ exEnv.read_signatures [("f2")]).map
            (fun sig => ("out") ++ "/" ++ sig.name ++ ".c") :=
  ⟨by decide,
   C7_regenerates_all exEnv exStaleFS ("out") ("blas.txt") ("lapack.txt") false
     [("f1")] [("f2")] (by decide) (by decide) (by decide)⟩

end BlasWrapperGen
